import Mathlib

/-!
Verification of the `send_email` repository (package `send_mail`).

The development shallowly embeds `src/send_mail/smtp_sender.py`:

* `_ensure_list`            → `ensure_list`
* `EmailSender.__init__`    → `EmailSender.init`
* `EmailSender.send`        → `EmailSender.send`
* legacy `send_email`       → `send_email`

The SMTP transport is an external collaborator (smtplib); it is modelled as
an explicit behaviour record `SmtpBehavior` stating, for every call site the
Python code has (constructor/connect, the two `ehlo`s, `starttls`, `login`,
`send_message`, `quit`, `close`), whether that call returns normally or
raises, and which exception it raises.  The filesystem and the
`mimetypes.guess_type` collaborators are modelled by the record `Env`.
`EmailSender.send` then deterministically produces a result (`Except`)
together with the trace of SMTP calls actually performed, in order.
-/

/-- Python exception values that the code under `src/` raises or catches.
`smtpResponseExc` stands for `smtplib.SMTPResponseException` (the only class
the close path catches); `smtpOtherExc` stands for any other exception an
SMTP call may raise (e.g. `SMTPServerDisconnected`, `OSError`). -/
inductive PyErr where
  | valueError (msg : String)
  | fileNotFoundError (msg : String)
  | smtpResponseExc (code : Nat) (msg : String)
  | smtpOtherExc (msg : String)
  deriving DecidableEq, Repr

/-- `isinstance(e, smtplib.SMTPResponseException)`. -/
def PyErr.isResponseExc : PyErr → Bool
  | .smtpResponseExc _ _ => true
  | _ => false

/-- A MIME attachment part as assembled by `EmailMessage.add_attachment`:
content bytes, maintype/subtype, and the filename (basename of the path). -/
structure Attachment where
  data : List Nat
  maintype : String
  subtype : String
  filename : String
  deriving DecidableEq, Repr

/-- The assembled `email.message.EmailMessage`: From/To/Subject headers,
the body (HTML alternative part when `html`, plain text otherwise), and
attachment parts in order. -/
structure MimeMessage where
  fromAddr : String
  toHeader : String
  subject : String
  body : String
  html : Bool
  attachments : List Attachment
  deriving DecidableEq, Repr

/-- One SMTP call made by `EmailSender.send`, in the order performed.
`connectPlain`/`connectSSL` are the `smtplib.SMTP` / `smtplib.SMTP_SSL`
constructors (which connect). -/
inductive SmtpEvent where
  | connectPlain (host : String) (port : Nat) (timeout : Option Rat)
  | connectSSL (host : String) (port : Nat) (timeout : Option Rat)
  | ehlo
  | starttls
  | login (user : String) (pass : String)
  | sendMessage (msg : MimeMessage)
  | quit
  | close
  deriving DecidableEq, Repr

def SmtpEvent.isStarttls : SmtpEvent → Bool
  | .starttls => true
  | _ => false

def SmtpEvent.isLogin : SmtpEvent → Bool
  | .login _ _ => true
  | _ => false

def SmtpEvent.isSendMessage : SmtpEvent → Bool
  | .sendMessage _ => true
  | _ => false

/-- Behaviour of the SMTP collaborator at each call site of
`EmailSender.send`: `none` means the call returns normally, `some e` means it
raises `e`.  `ehlo1`/`ehlo2` are the first and second `server.ehlo()` calls. -/
structure SmtpBehavior where
  connect : Option PyErr
  ehlo1 : Option PyErr
  starttls : Option PyErr
  ehlo2 : Option PyErr
  login : Option PyErr
  sendMessage : Option PyErr
  quit : Option PyErr
  close : Option PyErr
  deriving DecidableEq, Repr

/-- The always-succeeding SMTP collaborator. -/
def SmtpBehavior.ok : SmtpBehavior :=
  ⟨none, none, none, none, none, none, none, none⟩

/-- Filesystem and MIME-type-guessing collaborators used for attachments:
`os.path.isfile`, `open(path, "rb").read()`, `mimetypes.guess_type`. -/
structure Env where
  isFile : String → Bool
  readBytes : String → List Nat
  guessType : String → Option String

/-- An `Env` with no files; used for runs without attachments. -/
def Env.empty : Env :=
  ⟨fun _ => false, fun _ => [], fun _ => none⟩

/-- Python truthiness of an `Optional[str]`: `None` and `""` are falsy. -/
def strTruthy : Option String → Bool
  | none => false
  | some s => s != ""

/-- Python `a or b` for `a : Optional[str]` and a string default `b`. -/
def orStr (a : Option String) (b : String) : String :=
  match a with
  | none => b
  | some s => if s == "" then b else s

/-- The whitespace characters that Python `str.strip()` removes (the ASCII
ones: space, tab, newline, carriage return, vertical tab, form feed). -/
def pyIsSpace (c : Char) : Bool :=
  (c == ' ') || (c == '\t') || (c == '\n') || (c == '\r') ||
    (c == '\x0b') || (c == '\x0c')

/-- Python `s.strip()`: drop leading and trailing whitespace. -/
def pyStrip (s : String) : String :=
  ⟨((s.data.dropWhile pyIsSpace).reverse.dropWhile pyIsSpace).reverse⟩

/-- Python `s.split(sep)` on the underlying character list, for a
one-character separator (the code only splits on `","` and `"/"`).
Mirrors Python: splitting the empty string gives `[""]`. -/
def pySplitChar (sep : Char) : List Char → List (List Char)
  | [] => [[]]
  | c :: rest =>
    match pySplitChar sep rest with
    | [] => if c == sep then [[], [c]] else [[c]]
    | h :: t => if c == sep then [] :: h :: t else (c :: h) :: t

/-- Python `s.split(sep)` for a one-character separator. -/
def pySplit (sep : Char) (s : String) : List String :=
  (pySplitChar sep s.data).map fun l => ⟨l⟩

/-- Python `sep.join(parts)`. -/
def pyJoin (sep : String) (parts : List String) : String :=
  ⟨List.intercalate sep.data (parts.map String.data)⟩

/-- Python `os.path.basename` (posix): the part after the last `/`. -/
def basename (path : String) : String :=
  (pySplit '/' path).getLast!

/-- Python `s.split(sep, 1)` unpacked into two parts; `none` when `sep` does
not occur (where the Python tuple unpacking would raise `ValueError`). -/
def splitOnce (sep : Char) (s : String) : Option (String × String) :=
  match pySplitChar sep s.data with
  | [] => none
  | [_] => none
  | a :: rest => some (⟨a⟩, ⟨List.intercalate [sep] rest⟩)

/-- Argument type of the `recipients` parameter: a single string or a
list/tuple of strings. -/
inductive Recipients where
  | str (s : String)
  | list (l : List String)
  deriving DecidableEq, Repr

/-- `_ensure_list` from `smtp_sender.py`: a list/tuple is returned as
`list(recipients)` unchanged; a string is split on commas, entries stripped,
empty entries dropped. -/
def ensure_list : Recipients → List String
  | .list l => l
  | .str s => ((pySplit ',' s).map pyStrip).filter (fun r => r != "")

/-- The configuration stored by `EmailSender.__init__` (one field per
`self.*` assignment). -/
structure EmailSender where
  smtp_server : String
  smtp_port : Nat
  username : Option String
  password : Option String
  use_tls : Bool
  use_ssl : Bool
  sender : String
  timeout : Option Rat
  deriving DecidableEq, Repr

/-- `EmailSender.__init__`: stores the connection settings and resolves
`self.sender = sender or username or "noreply@example.com"`. -/
def EmailSender.init (smtp_server : String) (smtp_port : Nat)
    (username password : Option String) (use_tls use_ssl : Bool)
    (sender : Option String) (timeout : Option Rat) : EmailSender :=
  { smtp_server := smtp_server
    smtp_port := smtp_port
    username := username
    password := password
    use_tls := use_tls
    use_ssl := use_ssl
    sender := orStr sender (orStr username "noreply@example.com")
    timeout := timeout }

/-- The attachment loop of `EmailSender.send`: for each path in order, raise
`FileNotFoundError` if it is not a regular file, else guess the content type
(falling back to `application/octet-stream`), split it into maintype/subtype
(`ctype.split("/", 1)`; unpacking raises `ValueError` when there is no `/`),
read the file fully and append the attachment part. -/
def buildAttachments (env : Env) : List String → Except PyErr (List Attachment)
  | [] => .ok []
  | path :: rest =>
    if env.isFile path = false then
      .error (.fileNotFoundError ("attachment not found: " ++ path))
    else
      let ctype := (env.guessType path).getD "application/octet-stream"
      match splitOnce '/' ctype with
      | none => .error (.valueError "not enough values to unpack")
      | some (maintype, subtype) =>
        let data := env.readBytes path
        match buildAttachments env rest with
        | .error e => .error e
        | .ok parts => .ok (⟨data, maintype, subtype, basename path⟩ :: parts)

instance : DecidableEq (Except PyErr Unit) := fun a b =>
  match a, b with
  | .ok (), .ok () => isTrue rfl
  | .ok (), .error _ => isFalse (fun h => Except.noConfusion h)
  | .error _, .ok () => isFalse (fun h => Except.noConfusion h)
  | .error e, .error f =>
    if h : e = f then isTrue (congrArg Except.error h)
    else isFalse (fun hh => h (by injection hh))

/-- Result of a `send` call: the Python outcome (normal return or exception)
together with the ordered trace of SMTP calls performed. -/
structure SendOutcome where
  result : Except PyErr Unit
  trace : List SmtpEvent
  deriving DecidableEq, Repr

/-- Lines 150–153 of `smtp_sender.py`: `login` when `self.username` is
truthy (with `self.password or ""`), then `send_message(msg)`.  Returns the
outcome and the SMTP calls performed. -/
def authSend (cfg : EmailSender) (b : SmtpBehavior) (msg : MimeMessage) :
    Except PyErr Unit × List SmtpEvent :=
  if strTruthy cfg.username then
    let u := cfg.username.getD ""
    let p := cfg.password.getD ""
    match b.login with
    | some e => (.error e, [.login u p])
    | none =>
      match b.sendMessage with
      | some e => (.error e, [.login u p, .sendMessage msg])
      | none => (.ok (), [.login u p, .sendMessage msg])
  else
    match b.sendMessage with
    | some e => (.error e, [.sendMessage msg])
    | none => (.ok (), [.sendMessage msg])

/-- The body of the `try:` block after the connection is established: the
STARTTLS upgrade (`ehlo`, `starttls`, `ehlo`) when `not use_ssl and
use_tls`, then `authSend`.  Returns the outcome of the block and the SMTP
calls it performed. -/
def sessionBody (cfg : EmailSender) (b : SmtpBehavior) (msg : MimeMessage) :
    Except PyErr Unit × List SmtpEvent :=
  if !cfg.use_ssl && cfg.use_tls then
    match b.ehlo1 with
    | some e => (.error e, [.ehlo])
    | none =>
      match b.starttls with
      | some e => (.error e, [.ehlo, .starttls])
      | none =>
        match b.ehlo2 with
        | some e => (.error e, [.ehlo, .starttls, .ehlo])
        | none =>
          ((authSend cfg b msg).1, [.ehlo, .starttls, .ehlo] ++ (authSend cfg b msg).2)
  else authSend cfg b msg

/-- The `finally:` block: always attempt `server.quit()`; a
`SMTPResponseException` from `quit` is caught and `server.close()` is
attempted, whose own `SMTPResponseException` is swallowed.  Any other
exception raised inside `finally` propagates, replacing the in-flight
outcome (Python `finally` semantics). -/
def applyFinally (b : SmtpBehavior) (res : Except PyErr Unit)
    (trace : List SmtpEvent) : SendOutcome :=
  match b.quit with
  | none => ⟨res, trace ++ [.quit]⟩
  | some e =>
    if e.isResponseExc then
      match b.close with
      | none => ⟨res, trace ++ [.quit, .close]⟩
      | some e2 =>
        if e2.isResponseExc then ⟨res, trace ++ [.quit, .close]⟩
        else ⟨.error e2, trace ++ [.quit, .close]⟩
    else ⟨.error e, trace ++ [.quit]⟩

/-- The SMTP call performed by the chosen constructor:
`smtplib.SMTP_SSL(host, port, timeout)` when `use_ssl`, else
`smtplib.SMTP(host, port, timeout)`. -/
def connectEvent (cfg : EmailSender) : SmtpEvent :=
  if cfg.use_ssl then .connectSSL cfg.smtp_server cfg.smtp_port cfg.timeout
  else .connectPlain cfg.smtp_server cfg.smtp_port cfg.timeout

/-- Connection establishment and the `try/finally` of `EmailSender.send`:
pick `smtplib.SMTP_SSL` or `smtplib.SMTP` by `use_ssl`, connect (the
constructor may raise, in which case no `finally` runs), then run the body
and the cleanup. -/
def runSession (cfg : EmailSender) (b : SmtpBehavior) (msg : MimeMessage) :
    SendOutcome :=
  match b.connect with
  | some e => ⟨.error e, [connectEvent cfg]⟩
  | none =>
    let body := sessionBody cfg b msg
    applyFinally b body.1 (connectEvent cfg :: body.2)

/-- `EmailSender.send`: recipient validation, MIME assembly (headers, body,
attachments), then the SMTP session.  `recipients = none` and an empty
normalized list raise `ValueError` before anything else; attachment errors
are raised before any connection. -/
def EmailSender.send (cfg : EmailSender) (env : Env) (b : SmtpBehavior)
    (recipients : Option Recipients) (subject : String) (body : String)
    (html : Bool) (attachments : Option (List String)) : SendOutcome :=
  match recipients with
  | none => ⟨.error (.valueError "recipients must be provided"), []⟩
  | some recs =>
    let to_addrs := ensure_list recs
    if to_addrs.isEmpty then
      ⟨.error (.valueError "no recipients parsed from recipients argument"), []⟩
    else
      match buildAttachments env (attachments.getD []) with
      | .error e => ⟨.error e, []⟩
      | .ok parts =>
        let msg : MimeMessage :=
          { fromAddr := cfg.sender
            toHeader := pyJoin ", " to_addrs
            subject := subject
            body := body
            html := html
            attachments := parts }
        runSession cfg b msg

/-- `EmailSender.send` with the implicit `self` state made explicit: the
method body of the Python `send` contains no assignment to any `self.*`
attribute, so the post-state at every exit point is the entry state. -/
def EmailSender.sendSt (cfg : EmailSender) (env : Env) (b : SmtpBehavior)
    (recipients : Option Recipients) (subject : String) (body : String)
    (html : Bool) (attachments : Option (List String)) :
    SendOutcome × EmailSender :=
  (cfg.send env b recipients subject body html attachments, cfg)

/-- The legacy `send_email` function: constructs an `EmailSender` with the
connection parameters and calls its `send` with the message parameters. -/
def send_email (smtp_server : String) (smtp_port : Nat)
    (sender : Option String) (recipients : Option Recipients)
    (subject : String) (body : String) (html : Bool)
    (username password : Option String) (use_tls use_ssl : Bool)
    (attachments : Option (List String)) (timeout : Option Rat)
    (env : Env) (b : SmtpBehavior) : SendOutcome :=
  let s := EmailSender.init smtp_server smtp_port username password
    use_tls use_ssl sender timeout
  s.send env b recipients subject body html attachments

/-- Well-formedness of the MIME-type collaborator: every guessed content
type contains a `/` (true of `mimetypes.guess_type`), so
`ctype.split("/", 1)` unpacks without raising. -/
def GuessTypeWF (env : Env) : Prop :=
  ∀ pth t, env.guessType pth = some t → (splitOnce '/' t).isSome = true

/-- The close-path behaviours that the `finally` block of
`EmailSender.send` swallows: `quit` succeeds, or `quit` raises an
`SMTPResponseException` and `close` succeeds or raises an
`SMTPResponseException` itself. -/
def swallowedClose (b : SmtpBehavior) : Prop :=
  b.quit = none ∨
    ∃ e, b.quit = some e ∧ e.isResponseExc = true ∧
      (b.close = none ∨ ∃ f, b.close = some f ∧ f.isResponseExc = true)

/-! ### Helper lemmas about the session model -/

lemma connectEvent_shape (cfg : EmailSender) :
    (∃ hs p t, connectEvent cfg = .connectSSL hs p t) ∨
    (∃ hs p t, connectEvent cfg = .connectPlain hs p t) := by
  unfold connectEvent
  split
  · exact Or.inl ⟨_, _, _, rfl⟩
  · exact Or.inr ⟨_, _, _, rfl⟩

lemma mem_authSend_trace (cfg : EmailSender) (b : SmtpBehavior)
    (msg : MimeMessage) (e : SmtpEvent) (he : e ∈ (authSend cfg b msg).2) :
    e.isLogin = true ∨ e.isSendMessage = true := by
  obtain ⟨c, e1, st, e2, lg, sm, q, cl⟩ := b
  unfold authSend at he
  split at he <;>
    rcases lg with _ | el <;> rcases sm with _ | es <;>
    simp_all [SmtpEvent.isLogin, SmtpEvent.isSendMessage] <;>
    rcases he with h | h <;> simp [h, SmtpEvent.isLogin, SmtpEvent.isSendMessage]

lemma login_mem_authSend (cfg : EmailSender) (b : SmtpBehavior)
    (msg : MimeMessage) (u p : String) :
    SmtpEvent.login u p ∈ (authSend cfg b msg).2 ↔
      (strTruthy cfg.username = true ∧ u = cfg.username.getD "" ∧
        p = cfg.password.getD "") := by
  obtain ⟨c, e1, st, e2, lg, sm, q, cl⟩ := b
  unfold authSend
  constructor
  · intro he
    split at he <;>
      rcases lg with _ | el <;> rcases sm with _ | es <;> simp_all
  · rintro ⟨ht, hu, hp⟩
    rw [if_pos ht]
    subst hu hp
    rcases lg with _ | el <;> rcases sm with _ | es <;> simp

lemma sendMessage_mem_authSend (cfg : EmailSender) (b : SmtpBehavior)
    (msg m : MimeMessage) (he : SmtpEvent.sendMessage m ∈ (authSend cfg b msg).2) :
    m = msg := by
  obtain ⟨c, e1, st, e2, lg, sm, q, cl⟩ := b
  unfold authSend at he
  split at he <;>
    rcases lg with _ | el <;> rcases sm with _ | es <;> simp_all

lemma authSend_ok_trace (cfg : EmailSender) (b : SmtpBehavior)
    (msg : MimeMessage) (hok : (authSend cfg b msg).1 = .ok ()) :
    (authSend cfg b msg).2 = [.sendMessage msg] ∨
    (authSend cfg b msg).2 =
      [.login (cfg.username.getD "") (cfg.password.getD ""), .sendMessage msg] := by
  obtain ⟨c, e1, st, e2, lg, sm, q, cl⟩ := b
  unfold authSend at hok ⊢
  split <;> split at hok <;>
    rcases lg with _ | el <;> rcases sm with _ | es <;> simp_all

lemma sessionBody_not_tls (cfg : EmailSender) (b : SmtpBehavior)
    (msg : MimeMessage) (h : (!cfg.use_ssl && cfg.use_tls) = false) :
    sessionBody cfg b msg = authSend cfg b msg := by
  unfold sessionBody
  rw [h]
  simp

lemma mem_sessionBody_trace (cfg : EmailSender) (b : SmtpBehavior)
    (msg : MimeMessage) (e : SmtpEvent) (he : e ∈ (sessionBody cfg b msg).2) :
    e = .ehlo ∨ e = .starttls ∨ e ∈ (authSend cfg b msg).2 := by
  obtain ⟨c, e1, st, e2, lg, sm, q, cl⟩ := b
  rcases hcond : (!cfg.use_ssl && cfg.use_tls) with _ | _
  · exact Or.inr (Or.inr (by simpa [sessionBody, hcond] using he))
  · rcases e1 with _ | x <;> rcases st with _ | x <;> rcases e2 with _ | x <;>
      simp_all [sessionBody, hcond] <;> tauto

lemma sessionBody_ok (cfg : EmailSender) (b : SmtpBehavior)
    (msg : MimeMessage) (hok : (sessionBody cfg b msg).1 = .ok ()) :
    (authSend cfg b msg).1 = .ok () ∧
    (sessionBody cfg b msg).2 =
      (if (!cfg.use_ssl && cfg.use_tls) = true then
        [.ehlo, .starttls, .ehlo] else []) ++ (authSend cfg b msg).2 := by
  obtain ⟨c, e1, st, e2, lg, sm, q, cl⟩ := b
  rcases hcond : (!cfg.use_ssl && cfg.use_tls) with _ | _
  · constructor
    · simpa [sessionBody, hcond] using hok
    · simp [sessionBody, hcond]
  · rcases e1 with _ | x <;> rcases st with _ | x <;> rcases e2 with _ | x <;>
      simp_all [sessionBody, hcond]

lemma sessionBody_pre_none (cfg : EmailSender) (b : SmtpBehavior)
    (msg : MimeMessage) (h1 : b.ehlo1 = none) (h2 : b.starttls = none)
    (h3 : b.ehlo2 = none) :
    sessionBody cfg b msg =
      ((authSend cfg b msg).1,
       (if (!cfg.use_ssl && cfg.use_tls) = true then
         [.ehlo, .starttls, .ehlo] else []) ++ (authSend cfg b msg).2) := by
  obtain ⟨c, e1, st, e2, lg, sm, q, cl⟩ := b
  simp only at h1 h2 h3
  subst h1 h2 h3
  unfold sessionBody
  split <;> simp_all

lemma applyFinally_trace (b : SmtpBehavior) (res : Except PyErr Unit)
    (tr : List SmtpEvent) :
    (applyFinally b res tr).trace = tr ++ [.quit] ∨
    (applyFinally b res tr).trace = tr ++ [.quit, .close] := by
  obtain ⟨c, e1, st, e2, lg, sm, q, cl⟩ := b
  rcases q with _ | eq
  · simp [applyFinally]
  · by_cases hq : eq.isResponseExc = true
    · rcases cl with _ | ecl
      · simp [applyFinally, hq]
      · by_cases hc : ecl.isResponseExc = true <;> simp [applyFinally, hq, hc]
    · simp [applyFinally, hq]

lemma applyFinally_ok (b : SmtpBehavior) (res : Except PyErr Unit)
    (tr : List SmtpEvent) (hok : (applyFinally b res tr).result = .ok ()) :
    res = .ok () := by
  obtain ⟨c, e1, st, e2, lg, sm, q, cl⟩ := b
  rcases q with _ | eq
  · simpa [applyFinally] using hok
  · rcases cl with _ | ecl
    · by_cases hq : eq.isResponseExc = true <;> simp_all [applyFinally]
    · by_cases hq : eq.isResponseExc = true <;>
        by_cases hc : ecl.isResponseExc = true <;> simp_all [applyFinally]

lemma applyFinally_swallowed (b : SmtpBehavior) (res : Except PyErr Unit)
    (tr : List SmtpEvent) (hb : swallowedClose b) :
    (applyFinally b res tr).result = res := by
  obtain ⟨c, e1, st, e2, lg, sm, q, cl⟩ := b
  rcases hb with hq | ⟨e, hq, he, hcl⟩
  · simp only at hq
    subst hq
    rfl
  · simp only at hq
    subst hq
    rcases hcl with hc | ⟨f, hc, hf⟩
    · simp only at hc
      subst hc
      simp [applyFinally, he]
    · simp only at hc
      subst hc
      simp [applyFinally, he, hf]

lemma sessionBody_ignores_close (cfg : EmailSender) (c e1 st e2 lg sm q cl q2 cl2 : Option PyErr)
    (msg : MimeMessage) :
    sessionBody cfg ⟨c, e1, st, e2, lg, sm, q, cl⟩ msg =
      sessionBody cfg ⟨c, e1, st, e2, lg, sm, q2, cl2⟩ msg := by
  rcases hcond : (!cfg.use_ssl && cfg.use_tls) with _ | _ <;>
    rcases e1 with _ | x <;> rcases st with _ | x <;> rcases e2 with _ | x <;>
    rcases lg with _ | x <;> rcases sm with _ | x <;>
    simp [sessionBody, authSend, hcond]

/-- Case analysis of `EmailSender.send`: the call fails before any SMTP
activity, or the connect itself raises (and no cleanup runs), or the session
runs and the outcome is the `try/finally` applied to the session body, on a
message whose From header is the configured sender. -/
lemma send_cases (cfg : EmailSender) (env : Env) (b : SmtpBehavior)
    (r : Option Recipients) (s bo : String) (h : Bool)
    (a : Option (List String)) :
    ((cfg.send env b r s bo h a).trace = [] ∧
      ∃ e, (cfg.send env b r s bo h a).result = .error e) ∨
    ((cfg.send env b r s bo h a).trace = [connectEvent cfg] ∧
      ∃ e, b.connect = some e ∧
        (cfg.send env b r s bo h a).result = .error e) ∨
    (∃ msg, b.connect = none ∧ msg.fromAddr = cfg.sender ∧
      cfg.send env b r s bo h a =
        applyFinally b (sessionBody cfg b msg).1
          (connectEvent cfg :: (sessionBody cfg b msg).2)) := by
  unfold EmailSender.send
  rcases r with _ | recs
  · exact Or.inl ⟨rfl, _, rfl⟩
  · dsimp only
    by_cases he : (ensure_list recs).isEmpty
    · rw [if_pos he]
      exact Or.inl ⟨rfl, _, rfl⟩
    · rw [if_neg he]
      rcases hA : buildAttachments env (a.getD []) with e | parts
    -- attachment validation failed: no SMTP activity
      · exact Or.inl ⟨rfl, _, rfl⟩
      · dsimp only
        rcases hc : b.connect with _ | e
        · exact Or.inr (Or.inr
            ⟨⟨cfg.sender, pyJoin ", " (ensure_list recs), s, bo, h, parts⟩,
             rfl, rfl, by simp [runSession, hc]⟩)
        · exact Or.inr (Or.inl ⟨by simp [runSession, hc], e, rfl,
            by simp [runSession, hc]⟩)

lemma buildAttachments_error_of_missing (env : Env) (l : List String)
    (hwf : GuessTypeWF env) (hbad : ∃ p ∈ l, env.isFile p = false) :
    ∃ m, buildAttachments env l = .error (.fileNotFoundError m) := by
  induction l with
  | nil => rcases hbad with ⟨p, hp, _⟩; cases hp
  | cons head rest ih =>
    by_cases hh : env.isFile head = false
    · exact ⟨"attachment not found: " ++ head, by simp [buildAttachments, hh]⟩
    · rcases hbad with ⟨p, hp, hpf⟩
      rcases List.mem_cons.mp hp with rfl | hrest
      · exact absurd hpf hh
      · rcases ih ⟨p, hrest, hpf⟩ with ⟨m, hm⟩
        refine ⟨m, ?_⟩
        unfold buildAttachments
        rw [if_neg hh]
        rcases hg : env.guessType head with _ | t
        · simp only [hg, Option.getD]
          rw [show splitOnce '/' "application/octet-stream" =
            some ("application", "octet-stream") by decide]
          simp [hm]
        · have hs := hwf head t hg
          rcases hpair : splitOnce '/' t with _ | pair
          · rw [hpair] at hs; cases hs
          · simp only [hg, Option.getD]
            rw [hpair]
            simp [hm]

lemma buildAttachments_ok_isFile (env : Env) (l : List String)
    (parts : List Attachment) (hok : buildAttachments env l = .ok parts) :
    ∀ p ∈ l, env.isFile p = true := by
  induction l generalizing parts with
  | nil => intro p hp; cases hp
  | cons head rest ih =>
    intro p hp
    unfold buildAttachments at hok
    by_cases hh : env.isFile head = false
    · rw [if_pos hh] at hok; cases hok
    · have hhd : env.isFile head = true := by
        cases henv : env.isFile head
        · exact absurd henv hh
        · rfl
      rw [if_neg hh] at hok
      dsimp only at hok
      rcases List.mem_cons.mp hp with rfl | hrest
      · exact hhd
      · rcases hpair : splitOnce '/'
            ((env.guessType head).getD "application/octet-stream") with _ | pair
        · rw [hpair] at hok; cases hok
        · rw [hpair] at hok
          rcases hrec : buildAttachments env rest with e | parts2
          · rw [hrec] at hok; cases hok
          · exact ih parts2 hrec p hrest

/-! ### The claims -/

/-- C1: for every configuration with `use_ssl = true` and every message and
collaborator behaviour, a call to `EmailSender.send` never performs a
STARTTLS call on the SMTP session, regardless of the `use_tls` setting. -/
theorem c1_ssl_never_starttls (cfg : EmailSender) (env : Env) (b : SmtpBehavior)
    (r : Option Recipients) (s bo : String) (h : Bool) (a : Option (List String))
    (hssl : cfg.use_ssl = true) :
    SmtpEvent.starttls ∉ (cfg.send env b r s bo h a).trace := by
  have hcond : (!cfg.use_ssl && cfg.use_tls) = false := by simp [hssl]
  rcases send_cases cfg env b r s bo h a with ⟨ht, _⟩ | ⟨ht, _⟩ | ⟨msg, hc, hf, heq⟩
  · rw [ht]; simp
  · rw [ht]
    intro hmem
    rcases connectEvent_shape cfg with ⟨hs, p, t, hCE⟩ | ⟨hs, p, t, hCE⟩ <;>
      rw [hCE] at hmem <;> simp at hmem
  · rw [heq]
    intro hmem
    rcases applyFinally_trace b (sessionBody cfg b msg).1
        (connectEvent cfg :: (sessionBody cfg b msg).2) with h9 | h9 <;>
      rw [h9] at hmem <;>
      rw [sessionBody_not_tls cfg b msg hcond] at hmem <;>
      rcases connectEvent_shape cfg with ⟨hs, p, t, hCE⟩ | ⟨hs, p, t, hCE⟩ <;>
      rw [hCE] at hmem <;>
      simp at hmem <;>
      rcases mem_authSend_trace cfg b msg _ hmem with hL | hL <;>
      simp [SmtpEvent.isLogin, SmtpEvent.isSendMessage] at hL

theorem c1_ssl_never_starttls_witness :
    (EmailSender.init "smtp.example" 465 none none true true none none).use_ssl
      = true ∧
    SmtpEvent.starttls ∉
      ((EmailSender.init "smtp.example" 465 none none true true none none).send
        Env.empty SmtpBehavior.ok (some (.str "you@example.com")) "hi" "hello"
        false none).trace :=
  ⟨rfl, c1_ssl_never_starttls _ _ _ _ _ _ _ _ rfl⟩

/-- C4: for every message whose attachment list contains a path that is not
an existing regular file (with valid recipients and a well-formed MIME-type
collaborator), `send` fails with `FileNotFoundError` and performs no SMTP
call at all; and, in general, whenever any SMTP call is performed, every
attachment path referred to an existing regular file (all attachments are
validated and read before the transport is opened). -/
theorem c4_attachments_before_transport :
    (∀ (env : Env) (cfg : EmailSender) (b : SmtpBehavior) (recs : Recipients)
        (s bo : String) (h : Bool) (atts : List String),
      ensure_list recs ≠ [] → GuessTypeWF env →
      (∃ p ∈ atts, env.isFile p = false) →
      (∃ m, (cfg.send env b (some recs) s bo h (some atts)).result =
        .error (.fileNotFoundError m)) ∧
      (cfg.send env b (some recs) s bo h (some atts)).trace = []) ∧
    (∀ (env : Env) (cfg : EmailSender) (b : SmtpBehavior)
        (r : Option Recipients) (s bo : String) (h : Bool)
        (atts : Option (List String)),
      (cfg.send env b r s bo h atts).trace ≠ [] →
      ∀ p ∈ atts.getD [], env.isFile p = true) := by
  constructor
  · intro env cfg b recs s bo h atts hne hwf hbad
    rcases buildAttachments_error_of_missing env atts hwf hbad with ⟨m, hm⟩
    have hisE : (ensure_list recs).isEmpty = false := by
      cases h2 : (ensure_list recs).isEmpty
      · rfl
      · exact absurd (List.isEmpty_iff.mp h2) hne
    constructor
    · exact ⟨m, by simp [EmailSender.send, hisE, hm]⟩
    · simp [EmailSender.send, hisE, hm]
  · intro env cfg b r s bo h atts hne p hp
    rcases r with _ | recs
    · simp [EmailSender.send] at hne
    · cases hisE : (ensure_list recs).isEmpty
      · rcases hA : buildAttachments env (atts.getD []) with e | parts
        · simp [EmailSender.send, hisE, hA] at hne
        · exact buildAttachments_ok_isFile env _ parts hA p hp
      · simp [EmailSender.send, hisE] at hne

theorem c4_attachments_before_transport_witness :
    (ensure_list (.str "a@x") ≠ [] ∧ GuessTypeWF Env.empty ∧
      (∃ p ∈ ["/no/such/file"], Env.empty.isFile p = false) ∧
      (∃ m, ((EmailSender.init "h" 587 none none true false none none).send
          Env.empty SmtpBehavior.ok (some (.str "a@x")) "s" "b" false
          (some ["/no/such/file"])).result = .error (.fileNotFoundError m)) ∧
      ((EmailSender.init "h" 587 none none true false none none).send
          Env.empty SmtpBehavior.ok (some (.str "a@x")) "s" "b" false
          (some ["/no/such/file"])).trace = []) ∧
    (((EmailSender.init "h" 587 none none true false none none).send
        ⟨fun _ => true, fun _ => [7], fun _ => some "text/plain"⟩
        SmtpBehavior.ok (some (.str "a@x")) "s" "b" false
        (some ["a.txt"])).trace ≠ [] ∧
      ∀ p ∈ (some ["a.txt"] : Option (List String)).getD [],
        (⟨fun _ => true, fun _ => [7], fun _ => some "text/plain"⟩ : Env).isFile p
          = true) := by
  constructor
  · refine ⟨by decide, ?_, ?_, ?_⟩
    · intro pth t ht
      exact Option.noConfusion ht
    · exact ⟨"/no/such/file", by decide, rfl⟩
    · exact c4_attachments_before_transport.1 Env.empty
        (EmailSender.init "h" 587 none none true false none none)
        SmtpBehavior.ok (.str "a@x") "s" "b" false ["/no/such/file"]
        (by decide) (fun pth t ht => Option.noConfusion ht)
        ⟨"/no/such/file", by decide, rfl⟩
  · refine ⟨by decide, ?_⟩
    exact c4_attachments_before_transport.2
      ⟨fun _ => true, fun _ => [7], fun _ => some "text/plain"⟩
      (EmailSender.init "h" 587 none none true false none none)
      SmtpBehavior.ok (some (.str "a@x")) "s" "b" false (some ["a.txt"])
      (by decide)

lemma connectEvent_flags (cfg : EmailSender) :
    (connectEvent cfg).isStarttls = false ∧ (connectEvent cfg).isLogin = false ∧
      (connectEvent cfg).isSendMessage = false := by
  unfold connectEvent
  split <;> exact ⟨rfl, rfl, rfl⟩

/-- C5: for every configuration with `use_ssl = false` and `use_tls = true`,
on every send whose result is success, the trace contains exactly one
STARTTLS call, immediately preceded and followed by an EHLO, and every
authentication or transmission call comes after it: the trace decomposes as
`pre ++ [ehlo, starttls, ehlo] ++ post` where `pre` contains no STARTTLS, no
login and no transmission, and `post` contains no STARTTLS. -/
theorem c5_starttls_exactly_once (cfg : EmailSender) (env : Env)
    (b : SmtpBehavior) (r : Option Recipients) (s bo : String) (h : Bool)
    (a : Option (List String)) (hssl : cfg.use_ssl = false)
    (htls : cfg.use_tls = true)
    (hok : (cfg.send env b r s bo h a).result = .ok ()) :
    ∃ pre post, (cfg.send env b r s bo h a).trace =
        pre ++ [.ehlo, .starttls, .ehlo] ++ post ∧
      (∀ e ∈ pre, e.isStarttls = false ∧ e.isLogin = false ∧
        e.isSendMessage = false) ∧
      (∀ e ∈ post, e.isStarttls = false) := by
  have hcond : (!cfg.use_ssl && cfg.use_tls) = true := by simp [hssl, htls]
  rcases send_cases cfg env b r s bo h a with ⟨ht, e, hr⟩ | ⟨ht, e, hc, hr⟩ |
    ⟨msg, hc, hf, heq⟩
  · rw [hr] at hok
    exact Except.noConfusion hok
  · rw [hr] at hok
    exact Except.noConfusion hok
  · rw [heq] at hok ⊢
    have hbody := applyFinally_ok b _ _ hok
    obtain ⟨hAok, hTr⟩ := sessionBody_ok cfg b msg hbody
    rw [if_pos hcond] at hTr
    have h4 := authSend_ok_trace cfg b msg hAok
    rcases applyFinally_trace b (sessionBody cfg b msg).1
        (connectEvent cfg :: (sessionBody cfg b msg).2) with h9 | h9 <;>
      rw [h9, hTr] <;>
      [refine ⟨[connectEvent cfg], (authSend cfg b msg).2 ++ [.quit], ?_, ?_, ?_⟩;
       refine ⟨[connectEvent cfg], (authSend cfg b msg).2 ++ [.quit, .close],
         ?_, ?_, ?_⟩] <;>
      [simp; skip; skip; simp; skip; skip] <;>
      [skip; skip; skip; skip] <;>
      first
      | (intro e2 he2
         simp only [List.mem_singleton] at he2
         subst he2
         exact connectEvent_flags cfg)
      | (intro e2 he2
         rcases h4 with h4 | h4 <;> rw [h4] at he2 <;> simp at he2 <;>
           rcases he2 with rfl | rfl | rfl | rfl <;> rfl)

theorem c5_starttls_exactly_once_witness :
    ((EmailSender.init "smtp.example" 587 (some "user") (some "pass") true
        false none none).use_ssl = false ∧
      (EmailSender.init "smtp.example" 587 (some "user") (some "pass") true
        false none none).use_tls = true ∧
      ((EmailSender.init "smtp.example" 587 (some "user") (some "pass") true
          false none none).send Env.empty SmtpBehavior.ok
          (some (.str "you@example.com")) "hi" "hello" false none).result =
        .ok ()) ∧
    ∃ pre post,
      ((EmailSender.init "smtp.example" 587 (some "user") (some "pass") true
          false none none).send Env.empty SmtpBehavior.ok
          (some (.str "you@example.com")) "hi" "hello" false none).trace =
        pre ++ [.ehlo, .starttls, .ehlo] ++ post ∧
      (∀ e ∈ pre, e.isStarttls = false ∧ e.isLogin = false ∧
        e.isSendMessage = false) ∧
      (∀ e ∈ post, e.isStarttls = false) :=
  ⟨⟨rfl, rfl, by decide⟩,
   c5_starttls_exactly_once _ _ _ _ _ _ _ _ rfl rfl (by decide)⟩

/-- C6 counterexample: with `username = Some ""` a username is configured
(`isSome`), yet a fully successful `send` never attempts authentication —
the code tests Python truthiness (`if self.username:`), not presence, so
the claim "authentication is attempted if and only if a username is
configured" fails at this input. -/
theorem c6_counterexample_empty_username :
    ((EmailSender.init "h" 587 (some "") (some "pw") true false none
        none).username).isSome = true ∧
    ((EmailSender.init "h" 587 (some "") (some "pw") true false none
        none).send Env.empty SmtpBehavior.ok (some (.str "a@x")) "s" "b"
        false none).result = .ok () ∧
    (((EmailSender.init "h" 587 (some "") (some "pw") true false none
        none).send Env.empty SmtpBehavior.ok (some (.str "a@x")) "s" "b"
        false none).trace.any SmtpEvent.isLogin) = false := by
  decide

/-- C6 (amended): on every run where the session is opened (`quit` occurs
in the trace) and the pre-authentication calls do not raise, `send`
attempts authentication if and only if the configured username is truthy
(present and non-empty); and any login call in any trace carries exactly
the configured username and the configured password, with the empty string
substituted when no password was given. -/
theorem c6_auth_iff_truthy_username (cfg : EmailSender) (env : Env)
    (b : SmtpBehavior) (r : Option Recipients) (s bo : String) (h : Bool)
    (a : Option (List String)) (h1 : b.ehlo1 = none) (h2 : b.starttls = none)
    (h3 : b.ehlo2 = none)
    (hq : SmtpEvent.quit ∈ (cfg.send env b r s bo h a).trace) :
    ((∃ u p, SmtpEvent.login u p ∈ (cfg.send env b r s bo h a).trace) ↔
      strTruthy cfg.username = true) ∧
    (∀ u p, SmtpEvent.login u p ∈ (cfg.send env b r s bo h a).trace →
      cfg.username = some u ∧ p = cfg.password.getD "") := by
  rcases send_cases cfg env b r s bo h a with ⟨ht, _⟩ | ⟨ht, _⟩ |
    ⟨msg, hc, hf, heq⟩
  · rw [ht] at hq
    simp at hq
  · rw [ht] at hq
    rcases connectEvent_shape cfg with ⟨hs, pt, t, hCE⟩ | ⟨hs, pt, t, hCE⟩ <;>
      rw [hCE] at hq <;> simp at hq
  · rw [heq] at hq ⊢
    have hsb := sessionBody_pre_none cfg b msg h1 h2 h3
    have hAS : ∀ u p, (SmtpEvent.login u p ∈
        (applyFinally b (sessionBody cfg b msg).1
          (connectEvent cfg :: (sessionBody cfg b msg).2)).trace ↔
        SmtpEvent.login u p ∈ (authSend cfg b msg).2) := by
      intro u p
      rcases applyFinally_trace b (sessionBody cfg b msg).1
          (connectEvent cfg :: (sessionBody cfg b msg).2) with h9 | h9 <;>
        rw [h9, hsb] <;>
        rcases connectEvent_shape cfg with ⟨hs, pt, t, hCE⟩ | ⟨hs, pt, t, hCE⟩ <;>
        rw [hCE] <;>
        rcases hcond : (!cfg.use_ssl && cfg.use_tls) with _ | _ <;>
        simp [hcond]
    constructor
    · constructor
      · rintro ⟨u, p, hm⟩
        exact ((login_mem_authSend cfg b msg u p).mp ((hAS u p).mp hm)).1
      · intro htru
        exact ⟨_, _, (hAS _ _).mpr
          ((login_mem_authSend cfg b msg _ _).mpr ⟨htru, rfl, rfl⟩)⟩
    · intro u p hm
      obtain ⟨htru, hu, hp⟩ :=
        (login_mem_authSend cfg b msg u p).mp ((hAS u p).mp hm)
      rcases hU : cfg.username with _ | su
      · rw [hU] at htru
        simp [strTruthy] at htru
      · constructor
        · simp [Option.getD] at hu
          rw [hu, hU]
        · exact hp

theorem c6_auth_iff_truthy_username_witness :
    (SmtpBehavior.ok.ehlo1 = none ∧ SmtpBehavior.ok.starttls = none ∧
      SmtpBehavior.ok.ehlo2 = none ∧
      SmtpEvent.quit ∈
        ((EmailSender.init "smtp.example" 587 (some "user") (some "pass")
            true false none none).send Env.empty SmtpBehavior.ok
            (some (.str "you@example.com")) "hi" "hello" false none).trace) ∧
    ((∃ u p, SmtpEvent.login u p ∈
        ((EmailSender.init "smtp.example" 587 (some "user") (some "pass")
            true false none none).send Env.empty SmtpBehavior.ok
            (some (.str "you@example.com")) "hi" "hello" false none).trace) ↔
      strTruthy (EmailSender.init "smtp.example" 587 (some "user")
          (some "pass") true false none none).username = true) ∧
    (∀ u p, SmtpEvent.login u p ∈
        ((EmailSender.init "smtp.example" 587 (some "user") (some "pass")
            true false none none).send Env.empty SmtpBehavior.ok
            (some (.str "you@example.com")) "hi" "hello" false none).trace →
      (EmailSender.init "smtp.example" 587 (some "user") (some "pass") true
          false none none).username = some u ∧
      p = (EmailSender.init "smtp.example" 587 (some "user") (some "pass")
          true false none none).password.getD "") :=
  ⟨⟨rfl, rfl, rfl, by decide⟩,
   c6_auth_iff_truthy_username _ _ _ _ _ _ _ _ rfl rfl rfl (by decide)⟩

/-- C7 counterexample: the `finally` block only catches
`smtplib.SMTPResponseException`.  If `quit` raises any other exception
(here an `SMTPServerDisconnected`-like error) after a successful transmit,
that close-path error propagates and turns the successful result into a
failure — refuting "any error raised while closing the session is
swallowed". -/
theorem c7_counterexample_quit_error_masks_success :
    (((⟨none, none, none, none, none, none,
          some (.smtpOtherExc "disconnected"), none⟩ : SmtpBehavior)).sendMessage
        = none) ∧
    ((EmailSender.init "smtp.example" 587 (some "user") (some "pass") true
        false none none).send Env.empty
        ⟨none, none, none, none, none, none,
          some (.smtpOtherExc "disconnected"), none⟩
        (some (.str "a@x")) "s" "b" false none).result =
      .error (.smtpOtherExc "disconnected") ∧
    (((EmailSender.init "smtp.example" 587 (some "user") (some "pass") true
        false none none).send Env.empty
        ⟨none, none, none, none, none, none,
          some (.smtpOtherExc "disconnected"), none⟩
        (some (.str "a@x")) "s" "b" false none).trace.any
      SmtpEvent.isSendMessage) = true := by
  decide

/-- C7 (amended): the close-path outcomes that the `finally` block swallows
— `quit` succeeding, or `quit` raising an `SMTPResponseException` while
`close` succeeds or itself raises an `SMTPResponseException` — never change
the result of `send`: it equals the result obtained with a cleanly closing
session.  A successful transmit stays successful and an earlier error is
not replaced.  (Close-path exceptions of any other class do propagate, as
the counterexample shows.) -/
theorem c7_swallowed_close_preserves_result (cfg : EmailSender) (env : Env)
    (b : SmtpBehavior) (r : Option Recipients) (s bo : String) (h : Bool)
    (a : Option (List String)) (hb : swallowedClose b) :
    (cfg.send env b r s bo h a).result =
      (cfg.send env { b with quit := none, close := none }
        r s bo h a).result := by
  obtain ⟨c, e1, st, e2, lg, sm, q, cl⟩ := b
  unfold EmailSender.send
  rcases r with _ | recs
  · rfl
  · dsimp only
    by_cases hisE : (ensure_list recs).isEmpty = true
    · rw [if_pos hisE, if_pos hisE]
    · rw [if_neg hisE, if_neg hisE]
      rcases hA : buildAttachments env (a.getD []) with e | parts
      · rfl
      · dsimp only
        unfold runSession
        rcases c with _ | ec
        · dsimp only
          rw [applyFinally_swallowed _ _ _ hb]
          rw [sessionBody_ignores_close cfg none e1 st e2 lg sm q cl none none]
          rfl
        · rfl

theorem c7_swallowed_close_preserves_result_witness :
    swallowedClose ⟨none, none, none, none, none, none,
        some (.smtpResponseExc 421 "bye"), none⟩ ∧
    ((EmailSender.init "smtp.example" 587 (some "user") (some "pass") true
        false none none).send Env.empty
        ⟨none, none, none, none, none, none,
          some (.smtpResponseExc 421 "bye"), none⟩
        (some (.str "a@x")) "s" "b" false none).result =
      ((EmailSender.init "smtp.example" 587 (some "user") (some "pass") true
          false none none).send Env.empty
          { (⟨none, none, none, none, none, none,
              some (.smtpResponseExc 421 "bye"), none⟩ : SmtpBehavior) with
            quit := none, close := none }
          (some (.str "a@x")) "s" "b" false none).result :=
  ⟨Or.inr ⟨_, rfl, rfl, Or.inl rfl⟩,
   c7_swallowed_close_preserves_result _ _ _ _ _ _ _ _
     (Or.inr ⟨_, rfl, rfl, Or.inl rfl⟩)⟩

lemma sendMessage_mem_send_trace (cfg : EmailSender) (env : Env)
    (b : SmtpBehavior) (r : Option Recipients) (s bo : String) (h : Bool)
    (a : Option (List String)) (m : MimeMessage)
    (hm : SmtpEvent.sendMessage m ∈ (cfg.send env b r s bo h a).trace) :
    m.fromAddr = cfg.sender := by
  rcases send_cases cfg env b r s bo h a with ⟨ht, _⟩ | ⟨ht, _⟩ |
    ⟨msg, hc, hf, heq⟩
  · rw [ht] at hm
    simp at hm
  · rw [ht] at hm
    rcases connectEvent_shape cfg with ⟨hs, pt, t, hCE⟩ | ⟨hs, pt, t, hCE⟩ <;>
      rw [hCE] at hm <;> simp at hm
  · rw [heq] at hm
    have hmem : SmtpEvent.sendMessage m ∈ (sessionBody cfg b msg).2 := by
      rcases applyFinally_trace b (sessionBody cfg b msg).1
          (connectEvent cfg :: (sessionBody cfg b msg).2) with h9 | h9 <;>
        rw [h9] at hm <;>
        rcases connectEvent_shape cfg with ⟨hs, pt, t, hCE⟩ | ⟨hs, pt, t, hCE⟩ <;>
        rw [hCE] at hm <;>
        simpa using hm
    rcases mem_sessionBody_trace cfg b msg _ hmem with he | he | he
    · exact SmtpEvent.noConfusion he
    · exact SmtpEvent.noConfusion he
    · rw [sendMessage_mem_authSend cfg b msg m he]
      exact hf

/-- C8 counterexample: with `sender = Some ""` (provided) and
`username = Some "user"`, the constructor resolves the From address to
`"user"`, not to the provided (empty) sender address: the code's
`sender or username or "noreply@example.com"` tests Python truthiness, not
presence, so the claimed `senderAddress ?? username ?? placeholder`
resolution fails at this input. -/
theorem c8_counterexample_empty_sender :
    (EmailSender.init "h" 587 (some "user") none true false (some "") none).sender
      = "user" ∧
    ¬ (EmailSender.init "h" 587 (some "user") none true false (some "")
        none).sender = "" := by
  decide

/-- C8 (amended): the constructor resolves the effective From address as
the first truthy value (provided and non-empty) among `sender` then
`username`, falling back to `"noreply@example.com"` (a provided but empty
string is skipped, per Python `or`); and every message transmitted by
`send` carries exactly the resolved address in its From header. -/
theorem c8_sender_resolution :
    (∀ (host : String) (port : Nat) (username password : Option String)
        (tls ssl : Bool) (sender : Option String) (timeout : Option Rat),
      (∀ sstr, sender = some sstr → sstr ≠ "" →
        (EmailSender.init host port username password tls ssl sender
          timeout).sender = sstr) ∧
      ((sender = none ∨ sender = some "") → ∀ u, username = some u → u ≠ "" →
        (EmailSender.init host port username password tls ssl sender
          timeout).sender = u) ∧
      ((sender = none ∨ sender = some "") →
        (username = none ∨ username = some "") →
        (EmailSender.init host port username password tls ssl sender
          timeout).sender = "noreply@example.com")) ∧
    (∀ (cfg : EmailSender) (env : Env) (b : SmtpBehavior)
        (r : Option Recipients) (s bo : String) (h : Bool)
        (a : Option (List String)) (m : MimeMessage),
      SmtpEvent.sendMessage m ∈ (cfg.send env b r s bo h a).trace →
      m.fromAddr = cfg.sender) := by
  constructor
  · intro host port username password tls ssl sender timeout
    refine ⟨?_, ?_, ?_⟩
    · intro sstr hs hne
      subst hs
      simp [EmailSender.init, orStr, hne]
    · intro hs u hu hne
      subst hu
      rcases hs with rfl | rfl <;> simp [EmailSender.init, orStr, hne]
    · intro hs hu
      rcases hs with rfl | rfl <;> rcases hu with rfl | rfl <;>
        simp [EmailSender.init, orStr]
  · exact sendMessage_mem_send_trace

theorem c8_sender_resolution_witness :
    ((some "me@x" = some "me@x" ∧ "me@x" ≠ "") ∧
      (EmailSender.init "h" 25 none none true false (some "me@x")
        none).sender = "me@x") ∧
    ((EmailSender.init "h" 25 (some "user") none true false none
        none).sender = "user") ∧
    ((EmailSender.init "h" 25 none none true false none
        none).sender = "noreply@example.com") ∧
    (SmtpEvent.sendMessage
        ⟨"user", "a@x", "s", "b", false, []⟩ ∈
        ((EmailSender.init "h" 587 (some "user") none true false none
          none).send Env.empty SmtpBehavior.ok (some (.str "a@x")) "s" "b"
          false none).trace →
      (⟨"user", "a@x", "s", "b", false, []⟩ : MimeMessage).fromAddr =
        (EmailSender.init "h" 587 (some "user") none true false none
          none).sender) ∧
    ((⟨"user", "a@x", "s", "b", false, []⟩ : MimeMessage).fromAddr =
      (EmailSender.init "h" 587 (some "user") none true false none
        none).sender) :=
  ⟨⟨⟨rfl, by decide⟩,
    (c8_sender_resolution.1 "h" 25 none none true false (some "me@x")
      none).1 "me@x" rfl (by decide)⟩,
   (c8_sender_resolution.1 "h" 25 (some "user") none true false none
      none).2.1 (Or.inl rfl) "user" rfl (by decide),
   (c8_sender_resolution.1 "h" 25 none none true false none
      none).2.2 (Or.inl rfl) (Or.inl rfl),
   fun hm => c8_sender_resolution.2 _ Env.empty SmtpBehavior.ok
     (some (.str "a@x")) "s" "b" false none _ hm,
   c8_sender_resolution.2 _ Env.empty SmtpBehavior.ok
     (some (.str "a@x")) "s" "b" false none _ (by decide)⟩

/-- C2: evaluation of `_ensure_list` at the failing input.  A
comma-separated string is normalized (entries stripped, empty entries
dropped), but an explicit list of the same addresses is returned verbatim,
so the two input forms do not produce the same list — contradicting the
claim and the function's own docstring, which promises "a list of
stripped, non-empty recipient strings" for both forms. -/
theorem c2_ensure_list_list_not_normalized :
    ensure_list (.str " a@x , b@y ") = ["a@x", "b@y"] ∧
    ensure_list (.list [" a@x ", " b@y "]) = [" a@x ", " b@y "] ∧
    ensure_list (.list [" a@x ", " b@y "]) ≠
      ensure_list (.str " a@x , b@y ") := by
  decide

/-- C3: evaluation at the failing input.  A list recipient argument whose
single entry is whitespace-only is not rejected: `send` succeeds and opens
the transport (non-empty trace), instead of failing with `ValueError`
before any transport, because list inputs bypass normalization and a
one-element list is non-empty.  The same whitespace given as a string does
fail as claimed, with no SMTP activity. -/
theorem c3_whitespace_list_not_rejected :
    (((EmailSender.init "smtp.example" 587 none none true false none
        none).send Env.empty SmtpBehavior.ok (some (.list ["  "])) "s" "b"
        false none).result = .ok () ∧
      ((EmailSender.init "smtp.example" 587 none none true false none
        none).send Env.empty SmtpBehavior.ok (some (.list ["  "])) "s" "b"
        false none).trace ≠ []) ∧
    (((EmailSender.init "smtp.example" 587 none none true false none
        none).send Env.empty SmtpBehavior.ok (some (.str "  ")) "s" "b"
        false none).result =
      .error (.valueError "no recipients parsed from recipients argument") ∧
      ((EmailSender.init "smtp.example" 587 none none true false none
        none).send Env.empty SmtpBehavior.ok (some (.str "  ")) "s" "b"
        false none).trace = []) := by
  decide

/-- C9: configuration immutability.  With the `self` state of the `send`
method made explicit (`sendSt`), the post-state equals the configuration
built at construction on every path — the method body assigns no
attribute — and re-running `send` on the post-state configuration gives
the identical outcome, so reuse across calls is safe. -/
theorem c9_config_immutable (cfg : EmailSender) (env : Env)
    (b : SmtpBehavior) (r : Option Recipients) (s bo : String) (h : Bool)
    (a : Option (List String)) :
    (cfg.sendSt env b r s bo h a).2 = cfg ∧
    ((cfg.sendSt env b r s bo h a).2.sendSt env b r s bo h a).1 =
      (cfg.sendSt env b r s bo h a).1 :=
  ⟨rfl, rfl⟩

/-- C10: the legacy `send_email` function is extensionally the composition
of the constructor and the method: for every combination of connection and
message parameters, filesystem environment and transport behaviour, it
produces exactly the same outcome (same result, same SMTP trace) as
constructing an `EmailSender` with the connection parameters and calling
`send` with the message parameters. -/
theorem c10_send_email_equiv (host : String) (port : Nat)
    (sender : Option String) (r : Option Recipients) (s bo : String)
    (h : Bool) (username password : Option String) (tls ssl : Bool)
    (a : Option (List String)) (timeout : Option Rat) (env : Env)
    (b : SmtpBehavior) :
    send_email host port sender r s bo h username password tls ssl a
        timeout env b =
      (EmailSender.init host port username password tls ssl sender
        timeout).send env b r s bo h a :=
  rfl
